import Mathlib

/-!
Shallow embedding of the browser-side gallery script of the
`filesonlyorder` repository (`src/script.js`) and of its analytics
companion object `AnalyticsDisplay` (two variants of the file appear in
the repository), together with theorems checking the specification's
claims about order resolution, filename decoding, analytics
aggregation, drag-and-drop reordering, download submission and photo
deletion.

Modelling conventions:
* JavaScript strings are Lean `String`s.  `String.prototype.split` on a
  one-character separator is modelled on the underlying character list
  by `List.splitOn`, and `Array.prototype.join` by `List.intercalate`;
  both have exactly the JavaScript semantics for these inputs
  (splitting keeps empty chunks, `"".split(sep)` gives `[""]`).
* A settled network request (`fetch` plus, where the code parses it,
  `response.json()`) is modelled by a `FetchResult` value handed to the
  function as an input: `ok` carries the parsed document, `notOk` a
  non-2xx status, and `networkError` a thrown failure (a network error,
  a CORS failure, or a JSON parse error — the code under study treats
  all of these in the same `catch`).
* JavaScript truthiness tests on nullable values are made explicit by
  the `truthyStr` / `truthyInt` / `truthyNat` helpers (`null`,
  `undefined`, `""`, and `0` are falsy).
* `Array.prototype.sort`, which is stable, is modelled by
  `List.mergeSort`; the comparator `a.filename.localeCompare(b.filename)`
  is modelled as lexicographic (code-point) string comparison, which is
  what the specification calls "lexical comparison".
* `new Date(s).getFullYear()` is abstracted: the birth/death dates of
  the presentation-settings document are carried as the calendar year
  `getFullYear` would return (`Option Int`, `none` for an absent or
  empty date).
-/

/-- Truthiness of a JavaScript string-or-nullish value: `null`,
`undefined` and the empty string are falsy. -/
def truthyStr : Option String → Bool
  | none => false
  | some s => s != ""

/-- Truthiness of a JavaScript number-or-nullish value (integer case):
`null`, `undefined` and `0` are falsy. -/
def truthyInt : Option Int → Bool
  | none => false
  | some n => n != 0

/-- Truthiness of a JavaScript number-or-nullish value (natural-number
case): `null`, `undefined` and `0` are falsy. -/
def truthyNat : Option Nat → Bool
  | none => false
  | some n => n != 0

/-- JavaScript `a || b` on string-or-nullish values: `a` when truthy,
else `b`. -/
def jsOrStr (a b : Option String) : Option String :=
  if truthyStr a then a else b

/-- JavaScript `n || null` on a number-or-nullish value: `null` when
`n` is falsy (absent or zero). -/
def natOrNull (n : Option Nat) : Option Nat :=
  if truthyNat n then n else none

/-- Settled outcome of a `fetch` of a JSON document: a parsed document,
a non-ok HTTP response, or a thrown error (network/CORS failure or a
body that fails to parse — the scripts handle these in one `catch`). -/
inductive FetchResult (α : Type) where
  | ok (doc : α)
  | notOk (status : Nat) (statusText : String)
  | networkError (message : String)
deriving DecidableEq

/-- Whether the request did not deliver a parsed document (non-ok
response or thrown error). -/
def FetchResult.failed : FetchResult α → Bool
  | .ok _ => false
  | .notOk _ _ => true
  | .networkError _ => true

/-! ## Filename decoding (`extractOriginalFilename`, src/script.js:127-159) -/

/-- Basename of an S3 key: `s3Key.split('/').pop()`.  `split` always
returns a non-empty array, so `pop` is its last element. -/
def basename (s3Key : String) : String :=
  ⟨(s3Key.data.splitOn '/').getLastD []⟩

/-- Test from the marker-scanning loop:
`parts[i].startsWith('|') && parts[i].endsWith('|')`, on one
underscore-separated chunk of the filename.  (For the one-character
chunk `"|"` both tests succeed, as in JavaScript.) -/
def isMethodMarker (part : List Char) : Bool :=
  part.head? == some '|' && part.getLast? == some '|'

/-- Body of `extractOriginalFilename` after the basename has been
taken: split the filename on `'_'`, scan for the first chunk wrapped in
pipes (`startIndex` stays `0` when none is found), additionally skip
one literal `"x"` chunk at `startIndex`, and re-join the remaining
chunks with `'_'`. -/
def extractFromFilename (filename : String) : String :=
  let parts := filename.data.splitOn '_'
  let startIndex :=
    match parts.findIdx? isMethodMarker with
    | some i => i + 1
    | none => 0
  let startIndex := if parts[startIndex]? == some ['x'] then startIndex + 1 else startIndex
  ⟨['_'].intercalate (parts.drop startIndex)⟩

/-- Embedding of `extractOriginalFilename` (src/script.js:127-159). -/
def extractOriginalFilename (s3Key : String) : String :=
  extractFromFilename (basename s3Key)

/-! ## Order resolution (`loadPhotos` / `loadCustomOrder`, src/script.js:39-124) -/

/-- One gallery entry as built by `loadPhotos` in both branches. -/
structure PhotoEntry where
  s3Key : String
  filename : String
  originalFilename : String
deriving DecidableEq

/-- Entry construction shared by both branches of `loadPhotos`:
`{ s3Key, filename: s3Key.split('/').pop(), originalFilename: extractOriginalFilename(s3Key) }`. -/
def photoEntryOfKey (s3Key : String) : PhotoEntry :=
  { s3Key := s3Key
    filename := basename s3Key
    originalFilename := extractOriginalFilename s3Key }

/-- Parsed `custom_order.json` document.  The `order` field may be
absent (`undefined` in JavaScript), modelled by `none`. -/
structure CustomOrderDoc where
  order : Option (List String)
deriving DecidableEq

/-- One record of the `final_filenames.json` manifest; only its
`final_key` field is read, which may be absent, `null`, or empty. -/
structure ManifestEntry where
  final_key : Option String
deriving DecidableEq

/-- Embedding of `loadCustomOrder` (src/script.js:106-124): on an ok
response return `data.order`; on a non-ok response or a thrown error
(logged only) return `null`.  An ok document without an `order` field
yields `undefined`, which the caller's truthiness test treats exactly
like `null`, so both are `none` here. -/
def loadCustomOrder : FetchResult CustomOrderDoc → Option (List String)
  | .ok data => data.order
  | .notOk _ _ => none
  | .networkError _ => none

/-- Manifest branch of `loadPhotos` (src/script.js:73-80): keep entries
whose `final_key` is truthy and does not end in `".ready"`, build the
photo entries, and sort them by `a.filename.localeCompare(b.filename)`
(stable sort, modelled by `List.mergeSort` with lexicographic
comparison). -/
def manifestPhotoEntries (manifest : List ManifestEntry) : List PhotoEntry :=
  ((manifest.filter fun entry =>
      truthyStr entry.final_key && !((entry.final_key.getD "").endsWith ".ready")).map
    fun entry => photoEntryOfKey (entry.final_key.getD "")).mergeSort
    fun a b => decide (a.filename ≤ b.filename)

/-- Embedding of `loadPhotos` (src/script.js:39-103), as a function of
the settled outcomes of the two fetches it may perform.  A truthy
custom order (any array, including `[]`) is used verbatim; otherwise
the manifest is fetched, a non-ok manifest response throws
(`Except.error`), and a thrown manifest fetch propagates.  The returned
value is the `photoEntries` list the function renders; the module-level
`photoOrder` is `photoEntries.map(e => e.s3Key)` (see `photoOrderOf`). -/
def loadPhotos (customResp : FetchResult CustomOrderDoc)
    (manifestResp : FetchResult (List ManifestEntry)) :
    Except String (List PhotoEntry) :=
  match loadCustomOrder customResp with
  | some customOrder => .ok (customOrder.map photoEntryOfKey)
  | none =>
    match manifestResp with
    | .ok manifest => .ok (manifestPhotoEntries manifest)
    | .notOk status statusText =>
      .error ("Failed to fetch manifest: " ++ toString status ++ " " ++ statusText)
    | .networkError message => .error message

/-- The `photoOrder` state variable as set at src/script.js:86:
`photoEntries.map(entry => entry.s3Key)`. -/
def photoOrderOf (photoEntries : List PhotoEntry) : List String :=
  photoEntries.map fun entry => entry.s3Key

/-- Observable outcome of the `DOMContentLoaded` handler: either the
gallery is rendered from a list of entries, or the full-page error
state is shown with a message (and optional detail). -/
inductive PageOutcome where
  | galleryShown (photoEntries : List PhotoEntry)
  | errorShown (message : String) (detail : String)
deriving DecidableEq

/-- Embedding of the `DOMContentLoaded` handler (src/script.js:18-36):
a falsy `uid` query parameter shows an error; otherwise `loadPhotos`
runs, and a thrown error is surfaced via `showError` with the fixed
message and the error's own message as detail. -/
def pageLoad (uidParam : Option String) (customResp : FetchResult CustomOrderDoc)
    (manifestResp : FetchResult (List ManifestEntry)) : PageOutcome :=
  if !truthyStr uidParam then
    .errorShown "No order ID provided. Please check your link." ""
  else
    match loadPhotos customResp manifestResp with
    | .ok photoEntries => .galleryShown photoEntries
    | .error message =>
      .errorShown "Failed to load photos. Please try again or contact support." message

/-! ## Drag-and-drop reorder and download (src/script.js:202-303) -/

/-- Embedding of the `onEnd` drag handler (src/script.js:212-226):
when the indices differ, `photoOrder.splice(oldIndex, 1)` removes the
moved element and `photoOrder.splice(newIndex, 0, movedItem)` reinserts
it.  `splice` clamps an index at or beyond the length, which `take` and
`drop` do as well.  The drag library reports positions of existing DOM
children, so `oldIndex` is always in range; for an out-of-range
`oldIndex` JavaScript would insert `undefined`, which a list of strings
cannot hold, and the model keeps the removal only. -/
def onEndReorder (order : List String) (oldIndex newIndex : Nat) : List String :=
  if oldIndex = newIndex then order
  else
    match order[oldIndex]? with
    | some movedItem =>
      let removed := order.take oldIndex ++ order.drop (oldIndex + 1)
      removed.take newIndex ++ movedItem :: removed.drop newIndex
    | none => order.take oldIndex ++ order.drop (oldIndex + 1)

/-- Body of the zip-generation request submitted by `downloadAll`
(src/script.js:267-270): `JSON.stringify({ uid: uid, photo_order: photoOrder })`. -/
structure ZipRequest where
  uid : String
  photo_order : List String
deriving DecidableEq

/-- Embedding of the request construction in `downloadAll`
(src/script.js:262-271): the current `photoOrder` array is submitted
verbatim as the `photo_order` field. -/
def downloadAllRequest (uid : String) (photoOrder : List String) : ZipRequest :=
  { uid := uid, photo_order := photoOrder }

/-! ## Photo deletion (`deletePhoto`, src/script.js:533-620) -/

/-- How the delete request settled, as distinguished by `deletePhoto`:
the response arrived (whether or not its body could be parsed — a parse
failure is assumed to be a success), the fetch threw with a message
mentioning `CORS` or `NetworkError`, or the fetch threw with any other
message (alert shown, nothing removed). -/
inductive DeleteOutcome where
  | responseParsed
  | corsError
  | otherError (message : String)
deriving DecidableEq

/-- Update of the in-memory `photoOrder` performed by `deletePhoto`:
in the normal-response path (src/script.js:571-575) and in the
CORS-error path (src/script.js:596-600) it runs
`const index = photoOrder.indexOf(s3Key); if (index > -1) photoOrder.splice(index, 1);`;
in the other-error path the array is left untouched. -/
def deletePhotoOrder (order : List String) (s3Key : String)
    (outcome : DeleteOutcome) : List String :=
  match outcome with
  | .otherError _ => order
  | _ =>
    match order.findIdx? (· == s3Key) with
    | some index => order.take index ++ order.drop (index + 1)
    | none => order

/-! ## Analytics (`AnalyticsDisplay`, part_002 variant; part_000 gate below) -/

/-- The `AGE_BUCKETS` table of the part_002 `AnalyticsDisplay`: bucket
key paired with its display label (`label` and `shortLabel` coincide). -/
def AGE_BUCKETS : List (String × String) :=
  [("01-05", "0-5"), ("06-10", "6-10"), ("11-15", "11-15"), ("16-20", "16-20"),
   ("21-30", "21-30"), ("31-40", "31-40"), ("41-50", "41-50"), ("51-60", "51-60"),
   ("61-70", "61-70"), ("71-80", "71-80"), ("81+", "81+")]

/-- `Object.keys(this.AGE_BUCKETS)`, in insertion order. -/
def bucketOrder : List String :=
  AGE_BUCKETS.map fun b => b.1

/-- Label lookup `this.AGE_BUCKETS[bucket].label` (only applied to keys
of the table; an unknown key yields `""` here where JavaScript would
yield `undefined`). -/
def bucketLabel (bucket : String) : String :=
  ((AGE_BUCKETS.find? fun b => b.1 == bucket).map fun b => b.2).getD ""

/-- Embedding of `filename.match(/^(\d{2}-\d{2}|\d{2}\+)/)` from
`parseFilenames`: two leading digits followed either by a dash and two
further digits (first alternative, preferred) or by a plus sign. -/
def matchAgeToken (filename : String) : Option String :=
  match filename.data with
  | c1 :: c2 :: rest =>
    if c1.isDigit && c2.isDigit then
      match rest with
      | '-' :: c3 :: c4 :: _ =>
        if c3.isDigit && c4.isDigit then some ⟨[c1, c2, '-', c3, c4]⟩ else none
      | '+' :: _ => some ⟨[c1, c2, '+']⟩
      | _ => none
    else none
  | _ => none

/-- Per-bucket tally of `parseFilenames`: the number of keys whose
basename's leading age token is exactly this bucket key (tokens that
are not keys of `AGE_BUCKETS` are not counted). -/
def bucketCount (photoOrder : List String) (bucket : String) : Nat :=
  (photoOrder.filter fun key => matchAgeToken (basename key) == some bucket).length

/-- Result record of `parseFilenames`; in the no-bucket case the code
returns only `{ ageRangeLabel: null, bucketCounts: null }`, the other
fields being `undefined`, which is also `none` here. -/
structure FilenameStats where
  ageRangeLabel : Option String
  bucketCounts : Option (List (String × Nat))
  youngestBucket : Option String
  oldestBucket : Option String
deriving DecidableEq

/-- Embedding of `AnalyticsDisplay.parseFilenames` (part_002:60-94):
tally each bucket, keep the buckets with a positive count in table
order, and form the `youngest → oldest` range label. -/
def parseFilenames (photoOrder : List String) : FilenameStats :=
  let counts := bucketOrder.map fun b => (b, bucketCount photoOrder b)
  match bucketOrder.filter fun b => bucketCount photoOrder b > 0 with
  | [] =>
    { ageRangeLabel := none, bucketCounts := none
      youngestBucket := none, oldestBucket := none }
  | youngest :: rest =>
    let oldest := (youngest :: rest).getLastD youngest
    { ageRangeLabel := some (bucketLabel youngest ++ " → " ++ bucketLabel oldest)
      bucketCounts := some counts
      youngestBucket := some youngest
      oldestBucket := some oldest }

/-- Parsed `presentation_settings.json`.  Dates are abstracted to the
calendar year `new Date(s).getFullYear()` would yield; `none` stands
for an absent or empty field. -/
structure SettingsDoc where
  birthdate : Option Int
  deathdate : Option Int
  deceased_first_name : Option String
  deceased_full_name : Option String
deriving DecidableEq

/-- Contribution of the presentation-settings fetch to the stats
record. -/
structure SettingsData where
  birthdate : Option Int
  deathdate : Option Int
  deceasedName : Option String
deriving DecidableEq

/-- Embedding of `AnalyticsDisplay.fetchPresentationSettings`
(part_002:99-117): an ok response yields
`{ birthdate: data.birthdate || null, deathdate: data.deathdate || null,
deceasedName: data.deceased_first_name || data.deceased_full_name || null }`;
a non-ok response or a thrown error yields `{}` (every field absent). -/
def fetchPresentationSettings : FetchResult SettingsDoc → SettingsData
  | .ok data =>
    { birthdate := data.birthdate
      deathdate := data.deathdate
      deceasedName := jsOrStr data.deceased_first_name (jsOrStr data.deceased_full_name none) }
  | .notOk _ _ => { birthdate := none, deathdate := none, deceasedName := none }
  | .networkError _ => { birthdate := none, deathdate := none, deceasedName := none }

/-- The `enhanced_processing_stats` sub-object of `pre_merge_data.json`. -/
structure ProcStats where
  total_faces_indexed : Option Nat
  total_photos : Option Nat
deriving DecidableEq

/-- Parsed `pre_merge_data.json`; `data.enhanced_processing_stats || {}`
is modelled by `Option.getD` with the empty sub-object. -/
structure ProcessingDoc where
  enhanced_processing_stats : Option ProcStats
deriving DecidableEq

/-- Contribution of the processing-stats fetch to the stats record. -/
structure ProcessingData where
  totalFacesIndexed : Option Nat
  totalPhotosProcessed : Option Nat
deriving DecidableEq

/-- Embedding of `AnalyticsDisplay.fetchProcessingStats`
(part_002:122-141): an ok response yields
`{ totalFacesIndexed: stats.total_faces_indexed || null,
totalPhotosProcessed: stats.total_photos || null }` where `stats` is
`data.enhanced_processing_stats || {}`; a non-ok response or a thrown
error yields `{}`. -/
def fetchProcessingStats : FetchResult ProcessingDoc → ProcessingData
  | .ok data =>
    let stats := data.enhanced_processing_stats.getD
      { total_faces_indexed := none, total_photos := none }
    { totalFacesIndexed := natOrNull stats.total_faces_indexed
      totalPhotosProcessed := natOrNull stats.total_photos }
  | .notOk _ _ => { totalFacesIndexed := none, totalPhotosProcessed := none }
  | .networkError _ => { totalFacesIndexed := none, totalPhotosProcessed := none }

/-- Embedding of `AnalyticsDisplay.calculateYearsOfMemories`
(part_002:146-156).  The source receives the whole stats object and
reads only `stats.birthdate` and `stats.deathdate`; those two fields
are the parameters here, as the years `getFullYear` returns.  The
difference is kept only when strictly positive. -/
def calculateYearsOfMemories (birthdate deathdate : Option Int) : Option Int :=
  match birthdate, deathdate with
  | some birth, some death =>
    let years := death - birth
    if years > 0 then some years else none
  | _, _ => none

/-- The aggregated stats record built by `AnalyticsDisplay.init`
(part_002:26-55).  The spread sources write disjoint field sets, so
the later-wins merge is a plain record construction. -/
structure AnalyticsStats where
  photoCount : Nat
  ageRangeLabel : Option String
  bucketCounts : Option (List (String × Nat))
  youngestBucket : Option String
  oldestBucket : Option String
  birthdate : Option Int
  deathdate : Option Int
  deceasedName : Option String
  totalFacesIndexed : Option Nat
  totalPhotosProcessed : Option Nat
  yearsOfMemories : Option Int
deriving DecidableEq

/-- Embedding of the aggregation performed by `AnalyticsDisplay.init`
(part_002:26-49): combine the photo count, the filename-derived stats
and the two fetch contributions, then compute `yearsOfMemories` from
the record's own `birthdate`/`deathdate` fields. -/
def initStats (photoOrder : List String) (settings : SettingsData)
    (processing : ProcessingData) : AnalyticsStats :=
  let fs := parseFilenames photoOrder
  { photoCount := photoOrder.length
    ageRangeLabel := fs.ageRangeLabel
    bucketCounts := fs.bucketCounts
    youngestBucket := fs.youngestBucket
    oldestBucket := fs.oldestBucket
    birthdate := settings.birthdate
    deathdate := settings.deathdate
    deceasedName := settings.deceasedName
    totalFacesIndexed := processing.totalFacesIndexed
    totalPhotosProcessed := processing.totalPhotosProcessed
    yearsOfMemories := calculateYearsOfMemories settings.birthdate settings.deathdate }

/-- Render gate of `AnalyticsDisplay.render` in the part_002 (and
part_001) variant:
`if (!stats.yearsOfMemories && !stats.ageRangeLabel) return;` — this
function is `true` exactly when that early return is not taken, i.e.
when something is inserted into the page. -/
def rendersAnalytics (stats : AnalyticsStats) : Bool :=
  !(!truthyInt stats.yearsOfMemories && !truthyStr stats.ageRangeLabel)

/-- Stats record built by the part_000 variant of
`AnalyticsDisplay.init` (part_000:11-36): photo count, the seven
processing-stats fields, the presentation settings, and the computed
`yearsOfMemories`; this variant derives nothing from filenames. -/
structure AnalyticsStatsV0 where
  photoCount : Nat
  totalPhotos : Option Nat
  successfullyProcessed : Option Nat
  totalFacesIndexed : Option Nat
  qualifyingClusters : Option Nat
  stragglerClusters : Option Nat
  singletonClusters : Option Nat
  similarityCacheSize : Option Nat
  birthdate : Option Int
  deathdate : Option Int
  deceasedName : Option String
  yearsOfMemories : Option Int
deriving DecidableEq

/-- Render gate of `AnalyticsDisplay.render` in the part_000 variant
(part_000:137-142):
`if (!stats.totalFacesIndexed && !stats.yearsOfMemories) return;` —
`true` exactly when the early return is not taken. -/
def rendersAnalyticsV0 (stats : AnalyticsStatsV0) : Bool :=
  !(!truthyNat stats.totalFacesIndexed && !truthyInt stats.yearsOfMemories)

/-! ## Theorems -/

/-- C1: when the custom-order fetch returns an override list, `loadPhotos`
builds its entries from exactly that list, in its literal sequence with no
re-sorting, and the resulting `photoOrder` equals the list verbatim —
whatever the manifest fetch would have produced. -/
theorem loadPhotos_usesCustomOrderVerbatim
    (customResp : FetchResult CustomOrderDoc)
    (manifestResp : FetchResult (List ManifestEntry))
    (customOrder : List String)
    (h : loadCustomOrder customResp = some customOrder) :
    loadPhotos customResp manifestResp = .ok (customOrder.map photoEntryOfKey) ∧
    photoOrderOf (customOrder.map photoEntryOfKey) = customOrder := by
  constructor
  · simp [loadPhotos, h]
  · have hcomp : (fun entry : PhotoEntry => entry.s3Key) ∘ photoEntryOfKey =
        fun k : String => k := rfl
    simp [photoOrderOf, List.map_map, hcomp]

/-- Witness for `loadPhotos_usesCustomOrderVerbatim`: a concrete override
list of two keys, used verbatim even though the manifest fetch failed (the
manifest is never consulted on this path). -/
theorem loadPhotos_usesCustomOrderVerbatim_witness :
    loadCustomOrder (.ok { order := some ["p/b.jpg", "p/a.jpg"] }) =
      some ["p/b.jpg", "p/a.jpg"] ∧
    (loadPhotos (.ok { order := some ["p/b.jpg", "p/a.jpg"] }) (.notOk 404 "Not Found") =
        .ok (["p/b.jpg", "p/a.jpg"].map photoEntryOfKey) ∧
      photoOrderOf (["p/b.jpg", "p/a.jpg"].map photoEntryOfKey) = ["p/b.jpg", "p/a.jpg"]) :=
  ⟨by decide, loadPhotos_usesCustomOrderVerbatim _ _ _ (by decide)⟩

/-- C2 counterexample: the key `"x_photo.jpg"` (its own basename) contains no
underscore-separated chunk that starts and ends with a pipe, yet
`extractOriginalFilename` does not return the basename unchanged: the leading
`"x"` chunk is skipped even though no method marker was found. -/
theorem extractOriginalFilename_noMarker_counterexample :
    ((basename "x_photo.jpg").data.splitOn '_').all (fun part => !isMethodMarker part) = true ∧
    extractOriginalFilename "x_photo.jpg" = "photo.jpg" ∧
    extractOriginalFilename "x_photo.jpg" ≠ basename "x_photo.jpg" :=
  ⟨by decide, by decide, by decide⟩

/-- C2 (amended): for a storage key whose basename contains no
underscore-separated chunk that starts and ends with a pipe, *and* whose first
chunk is not the literal `"x"` (which the code additionally skips), the start
index defaults to 0 and the whole basename is returned unmodified. -/
theorem extractOriginalFilename_noMarker (s3Key : String)
    (hMarker : ∀ part ∈ (basename s3Key).data.splitOn '_', isMethodMarker part = false)
    (hx : ((basename s3Key).data.splitOn '_')[0]? ≠ some ['x']) :
    extractOriginalFilename s3Key = basename s3Key := by
  have h1 : ((basename s3Key).data.splitOn '_').findIdx? isMethodMarker = none := by
    rw [List.findIdx?_eq_none_iff]
    exact hMarker
  have h2 : (((basename s3Key).data.splitOn '_')[0]? == some ['x']) = false := by
    rw [beq_eq_false_iff_ne]
    exact hx
  simp only [extractOriginalFilename, extractFromFilename, h1, h2, Bool.false_eq_true,
    if_false, List.drop_zero, List.intercalate_splitOn]

/-- Witness for `extractOriginalFilename_noMarker`: a key whose basename
`"my_photo.jpg"` has no pipe-wrapped chunk and does not begin with an `"x"`
chunk is decoded to itself. -/
theorem extractOriginalFilename_noMarker_witness :
    (∀ part ∈ (basename "enhanced/uid/renamed/my_photo.jpg").data.splitOn '_',
      isMethodMarker part = false) ∧
    ((basename "enhanced/uid/renamed/my_photo.jpg").data.splitOn '_')[0]? ≠ some ['x'] ∧
    extractOriginalFilename "enhanced/uid/renamed/my_photo.jpg" =
      basename "enhanced/uid/renamed/my_photo.jpg" :=
  ⟨by decide, by decide, extractOriginalFilename_noMarker _ (by decide) (by decide)⟩

/-- C4: any key whose basename is `"01-05(003)_|EX|_x_photo.jpg"` decodes to
exactly `"photo.jpg"`: the `|EX|` marker is located, one following `"x"`
chunk is skipped, and the remainder is returned. -/
theorem extractOriginalFilename_markerExample (s3Key : String)
    (h : basename s3Key = "01-05(003)_|EX|_x_photo.jpg") :
    extractOriginalFilename s3Key = "photo.jpg" := by
  rw [extractOriginalFilename, h]
  decide

/-- Witness for `extractOriginalFilename_markerExample` at a concrete
generated storage key. -/
theorem extractOriginalFilename_markerExample_witness :
    basename "enhanced/uid123/renamed/01-05(003)_|EX|_x_photo.jpg" =
      "01-05(003)_|EX|_x_photo.jpg" ∧
    extractOriginalFilename "enhanced/uid123/renamed/01-05(003)_|EX|_x_photo.jpg" =
      "photo.jpg" :=
  ⟨by decide, extractOriginalFilename_markerExample _ (by decide)⟩

/-- C6: `calculateYearsOfMemories` returns death year minus birth year when
both dates are present and the difference is strictly positive, and `null`
otherwise (missing date, equal years, or negative difference); in particular
birth 1930 / death 2020 yields 90 and equal years yield `null`. -/
theorem calculateYearsOfMemories_spec (birth death : Int) :
    calculateYearsOfMemories (some birth) (some death) =
      (if 0 < death - birth then some (death - birth) else none) ∧
    calculateYearsOfMemories none (some death) = none ∧
    calculateYearsOfMemories (some birth) none = none ∧
    calculateYearsOfMemories none none = none ∧
    calculateYearsOfMemories (some 1930) (some 2020) = some 90 ∧
    calculateYearsOfMemories (some birth) (some birth) = none := by
  refine ⟨rfl, rfl, rfl, rfl, by decide, ?_⟩
  simp [calculateYearsOfMemories]

/-- C9: the drag-end handler applied with `oldIndex = 2`, `newIndex = 0` to a
5-element order `[a, b, c, d, e]` splices the moved item out and reinserts it
at the front, yielding `[c, a, b, d, e]`; `downloadAll` submits exactly the
current `photoOrder` as the `photo_order` field of its request body, so
exactly that permutation is sent on download. -/
theorem onEndReorder_spliceExample (a b c d e uid : String) :
    onEndReorder [a, b, c, d, e] 2 0 = [c, a, b, d, e] ∧
    downloadAllRequest uid (onEndReorder [a, b, c, d, e] 2 0) =
      { uid := uid, photo_order := [c, a, b, d, e] } := by
  have h1 : onEndReorder [a, b, c, d, e] 2 0 = [c, a, b, d, e] := by
    simp [onEndReorder]
  exact ⟨h1, by rw [downloadAllRequest, h1]⟩

/-- C3: with no override order, the entry sequence `loadPhotos` produces from
the manifest is sorted lexically ascending by the entries' `filename` (the
basename of the final key): every pair of adjacent entries satisfies
`earlier.filename ≤ later.filename`. -/
theorem loadPhotos_manifestSorted (customResp : FetchResult CustomOrderDoc)
    (manifest : List ManifestEntry)
    (h : loadCustomOrder customResp = none) :
    loadPhotos customResp (.ok manifest) = .ok (manifestPhotoEntries manifest) ∧
    List.Chain' (fun a b : PhotoEntry => a.filename ≤ b.filename)
      (manifestPhotoEntries manifest) ∧
    ∀ entry ∈ manifestPhotoEntries manifest, entry.filename = basename entry.s3Key := by
  refine ⟨by simp [loadPhotos, h], ?_, ?_⟩
  · have hp := @List.sorted_mergeSort PhotoEntry
      (fun a b : PhotoEntry => decide (a.filename ≤ b.filename))
      (fun a b c hab hbc => by
        simp only [decide_eq_true_eq] at hab hbc ⊢
        exact le_trans hab hbc)
      (fun a b => by
        rcases le_total a.filename b.filename with h1 | h1 <;> simp [h1])
      ((manifest.filter fun entry =>
          truthyStr entry.final_key && !((entry.final_key.getD "").endsWith ".ready")).map
        fun entry => photoEntryOfKey (entry.final_key.getD ""))
    exact List.Pairwise.chain' (hp.imp fun hab => by simpa using hab)
  · intro entry hmem
    simp only [manifestPhotoEntries, List.mem_mergeSort, List.mem_map] at hmem
    obtain ⟨e, _, rfl⟩ := hmem
    rfl

/-- Witness for `loadPhotos_manifestSorted`: a failed override fetch and a
concrete manifest whose entries arrive unsorted and include a sentinel
`.ready` entry, an absent key and an empty key. -/
theorem loadPhotos_manifestSorted_witness :
    loadCustomOrder (.notOk 403 "Forbidden") = none ∧
    (loadPhotos (.notOk 403 "Forbidden")
        (.ok [{ final_key := some "p/06-10(001)_|EX|_b.jpg" },
              { final_key := some "p/01-05(002)_|EX|_a.jpg" },
              { final_key := none },
              { final_key := some "p/zz.ready" },
              { final_key := some "" }]) =
      .ok (manifestPhotoEntries
        [{ final_key := some "p/06-10(001)_|EX|_b.jpg" },
         { final_key := some "p/01-05(002)_|EX|_a.jpg" },
         { final_key := none },
         { final_key := some "p/zz.ready" },
         { final_key := some "" }]) ∧
    List.Chain' (fun a b : PhotoEntry => a.filename ≤ b.filename)
      (manifestPhotoEntries
        [{ final_key := some "p/06-10(001)_|EX|_b.jpg" },
         { final_key := some "p/01-05(002)_|EX|_a.jpg" },
         { final_key := none },
         { final_key := some "p/zz.ready" },
         { final_key := some "" }]) ∧
    ∀ entry ∈ manifestPhotoEntries
        [{ final_key := some "p/06-10(001)_|EX|_b.jpg" },
         { final_key := some "p/01-05(002)_|EX|_a.jpg" },
         { final_key := none },
         { final_key := some "p/zz.ready" },
         { final_key := some "" }], entry.filename = basename entry.s3Key) :=
  ⟨by decide, loadPhotos_manifestSorted _ _ (by decide)⟩

/-- C5: two-tier error handling of the order resolver.  When no override is
in use, a failed (non-ok or thrown) manifest fetch makes `loadPhotos` throw
and the page-load handler surfaces the full-page error state; whereas a
failed or non-ok override-order fetch makes `loadCustomOrder` return `null`,
so `loadPhotos` silently falls back to the manifest path and, with an ok
manifest, succeeds without surfacing any error. -/
theorem loadPhotos_twoTierErrors (uid : String) (customResp : FetchResult CustomOrderDoc)
    (manifestResp : FetchResult (List ManifestEntry)) (manifest : List ManifestEntry)
    (huid : truthyStr (some uid) = true) :
    (loadCustomOrder customResp = none → manifestResp.failed = true →
      ∃ message, loadPhotos customResp manifestResp = .error message ∧
        pageLoad (some uid) customResp manifestResp =
          .errorShown "Failed to load photos. Please try again or contact support." message) ∧
    (customResp.failed = true →
      loadCustomOrder customResp = none ∧
      loadPhotos customResp (.ok manifest) = .ok (manifestPhotoEntries manifest) ∧
      pageLoad (some uid) customResp (.ok manifest) =
        .galleryShown (manifestPhotoEntries manifest)) := by
  constructor
  · intro hc hm
    cases manifestResp with
    | ok m => simp [FetchResult.failed] at hm
    | notOk status statusText =>
      refine ⟨"Failed to fetch manifest: " ++ toString status ++ " " ++ statusText, ?_, ?_⟩
      · simp [loadPhotos, hc]
      · simp [pageLoad, huid, loadPhotos, hc]
    | networkError message =>
      refine ⟨message, ?_, ?_⟩
      · simp [loadPhotos, hc]
      · simp [pageLoad, huid, loadPhotos, hc]
  · intro hf
    have hc : loadCustomOrder customResp = none := by
      cases customResp with
      | ok d => simp [FetchResult.failed] at hf
      | notOk status statusText => rfl
      | networkError message => rfl
    exact ⟨hc, by simp [loadPhotos, hc], by simp [pageLoad, huid, loadPhotos, hc]⟩

/-- Witness for `loadPhotos_twoTierErrors`: a CORS-style failure of the
override fetch and a 500 manifest response, at a concrete uid and an empty
manifest. -/
theorem loadPhotos_twoTierErrors_witness :
    truthyStr (some "abc123") = true ∧
    ((loadCustomOrder (.networkError "NetworkError when attempting to fetch resource.") = none →
      (FetchResult.notOk 500 "Internal Server Error" : FetchResult (List ManifestEntry)).failed = true →
      ∃ message,
        loadPhotos (.networkError "NetworkError when attempting to fetch resource.")
            (.notOk 500 "Internal Server Error") = .error message ∧
        pageLoad (some "abc123") (.networkError "NetworkError when attempting to fetch resource.")
            (.notOk 500 "Internal Server Error") =
          .errorShown "Failed to load photos. Please try again or contact support." message) ∧
    ((FetchResult.networkError "NetworkError when attempting to fetch resource." :
        FetchResult CustomOrderDoc).failed = true →
      loadCustomOrder (.networkError "NetworkError when attempting to fetch resource.") = none ∧
      loadPhotos (.networkError "NetworkError when attempting to fetch resource.") (.ok []) =
        .ok (manifestPhotoEntries []) ∧
      pageLoad (some "abc123") (.networkError "NetworkError when attempting to fetch resource.")
          (.ok []) = .galleryShown (manifestPhotoEntries []))) :=
  ⟨by decide, loadPhotos_twoTierErrors "abc123" _ _ [] (by decide)⟩

/-- Helper: the `indexOf`-then-`splice(index, 1)` update performed by
`deletePhoto` in its removing paths is first-occurrence removal, i.e.
`List.erase`. -/
theorem deletePhotoOrder_eq_erase (order : List String) (s3Key : String)
    (outcome : DeleteOutcome)
    (h : outcome = DeleteOutcome.responseParsed ∨ outcome = DeleteOutcome.corsError) :
    deletePhotoOrder order s3Key outcome = order.erase s3Key := by
  rcases h with rfl | rfl <;>
  · induction order with
    | nil => rfl
    | cons a l ih =>
      simp only [deletePhotoOrder, List.findIdx?_cons, List.findIdx?_succ] at ih ⊢
      by_cases ha : a == s3Key
      · simp [ha, List.erase_cons]
      · simp only [ha, Bool.false_eq_true, if_false, List.erase_cons]
        cases hfl : l.findIdx? (· == s3Key) with
        | none =>
          rw [hfl] at ih
          exact congrArg (List.cons a) ih
        | some i =>
          rw [hfl] at ih
          exact congrArg (List.cons a) ih

/-- C10: `deletePhoto`'s update of the in-memory order removes exactly the
first occurrence of the given key from `photoOrder` when the key is present
(the length decreases by one and every other element keeps its relative
order) and leaves `photoOrder` completely unchanged when the key is absent —
in both the normal-response path and the CORS-error path. -/
theorem deletePhotoOrder_removesFirstOccurrence (order : List String) (s3Key : String)
    (outcome : DeleteOutcome)
    (h : outcome = DeleteOutcome.responseParsed ∨ outcome = DeleteOutcome.corsError) :
    (∀ l1 l2, order = l1 ++ s3Key :: l2 → s3Key ∉ l1 →
      deletePhotoOrder order s3Key outcome = l1 ++ l2) ∧
    (s3Key ∈ order → (deletePhotoOrder order s3Key outcome).length + 1 = order.length) ∧
    (s3Key ∉ order → deletePhotoOrder order s3Key outcome = order) := by
  have heq := deletePhotoOrder_eq_erase order s3Key outcome h
  refine ⟨?_, ?_, ?_⟩
  · rintro l1 l2 rfl hnot
    rw [heq, List.erase_append_right _ hnot, List.erase_cons_head]
  · intro hmem
    rw [heq, List.length_erase_of_mem hmem]
    have hpos : 0 < order.length := List.length_pos.mpr (List.ne_nil_of_mem hmem)
    omega
  · intro hnot
    rw [heq, List.erase_of_not_mem hnot]

/-- Witness for `deletePhotoOrder_removesFirstOccurrence`: a concrete order
containing the key twice, decomposed around its first occurrence, in the
normal-response path; the membership and decomposition hypotheses are
discharged concretely. -/
theorem deletePhotoOrder_removesFirstOccurrence_witness :
    (DeleteOutcome.responseParsed = DeleteOutcome.responseParsed ∨
      DeleteOutcome.responseParsed = DeleteOutcome.corsError) ∧
    ["p/a.jpg", "p/k.jpg", "p/b.jpg", "p/k.jpg"] =
      ["p/a.jpg"] ++ "p/k.jpg" :: ["p/b.jpg", "p/k.jpg"] ∧
    "p/k.jpg" ∉ ["p/a.jpg"] ∧
    deletePhotoOrder ["p/a.jpg", "p/k.jpg", "p/b.jpg", "p/k.jpg"] "p/k.jpg"
      DeleteOutcome.responseParsed = ["p/a.jpg"] ++ ["p/b.jpg", "p/k.jpg"] :=
  ⟨Or.inl rfl, by decide, by decide,
    (deletePhotoOrder_removesFirstOccurrence _ _ _ (Or.inl rfl)).1
      ["p/a.jpg"] ["p/b.jpg", "p/k.jpg"] (by decide) (by decide)⟩

/-- C7 counterexample: a run of `init` in which both enrichment fetches fail
but the photo order carries an age-bucket filename: the aggregated record is
not all-null (the age-range label is present, parsed from the filename) and
render is not suppressed. -/
theorem initStats_bothFetchesFailed_counterexample :
    (FetchResult.networkError "offline" : FetchResult SettingsDoc).failed = true ∧
    (FetchResult.networkError "offline" : FetchResult ProcessingDoc).failed = true ∧
    (initStats ["01-05(001)_|EX|_x_baby.jpg"]
        (fetchPresentationSettings (.networkError "offline"))
        (fetchProcessingStats (.networkError "offline"))).ageRangeLabel = some "0-5 → 0-5" ∧
    rendersAnalytics (initStats ["01-05(001)_|EX|_x_baby.jpg"]
        (fetchPresentationSettings (.networkError "offline"))
        (fetchProcessingStats (.networkError "offline"))) = true :=
  ⟨rfl, rfl, by decide, by decide⟩

/-- C7 (amended): when both enrichment fetches fail, every fetch-derived
field of the aggregated record (birth/death dates, deceased name, face and
photo counts) and the derived `yearsOfMemories` are null, and render is
suppressed exactly when the filename parse found no age bucket; in
particular, for an empty photo order the record is all null/empty and render
is suppressed. -/
theorem initStats_bothFetchesFailed (photoOrder : List String)
    (settingsResp : FetchResult SettingsDoc) (processingResp : FetchResult ProcessingDoc)
    (h1 : settingsResp.failed = true) (h2 : processingResp.failed = true) :
    (initStats photoOrder (fetchPresentationSettings settingsResp)
        (fetchProcessingStats processingResp)).birthdate = none ∧
    (initStats photoOrder (fetchPresentationSettings settingsResp)
        (fetchProcessingStats processingResp)).deathdate = none ∧
    (initStats photoOrder (fetchPresentationSettings settingsResp)
        (fetchProcessingStats processingResp)).deceasedName = none ∧
    (initStats photoOrder (fetchPresentationSettings settingsResp)
        (fetchProcessingStats processingResp)).totalFacesIndexed = none ∧
    (initStats photoOrder (fetchPresentationSettings settingsResp)
        (fetchProcessingStats processingResp)).totalPhotosProcessed = none ∧
    (initStats photoOrder (fetchPresentationSettings settingsResp)
        (fetchProcessingStats processingResp)).yearsOfMemories = none ∧
    rendersAnalytics (initStats photoOrder (fetchPresentationSettings settingsResp)
        (fetchProcessingStats processingResp)) =
      truthyStr (initStats photoOrder (fetchPresentationSettings settingsResp)
        (fetchProcessingStats processingResp)).ageRangeLabel ∧
    (photoOrder = [] →
      (initStats photoOrder (fetchPresentationSettings settingsResp)
          (fetchProcessingStats processingResp)).photoCount = 0 ∧
      (initStats photoOrder (fetchPresentationSettings settingsResp)
          (fetchProcessingStats processingResp)).ageRangeLabel = none ∧
      (initStats photoOrder (fetchPresentationSettings settingsResp)
          (fetchProcessingStats processingResp)).bucketCounts = none ∧
      rendersAnalytics (initStats photoOrder (fetchPresentationSettings settingsResp)
          (fetchProcessingStats processingResp)) = false) := by
  have hs : fetchPresentationSettings settingsResp =
      { birthdate := none, deathdate := none, deceasedName := none } := by
    cases settingsResp with
    | ok d => simp [FetchResult.failed] at h1
    | notOk status statusText => rfl
    | networkError message => rfl
  have hp : fetchProcessingStats processingResp =
      { totalFacesIndexed := none, totalPhotosProcessed := none } := by
    cases processingResp with
    | ok d => simp [FetchResult.failed] at h2
    | notOk status statusText => rfl
    | networkError message => rfl
  rw [hs, hp]
  refine ⟨rfl, rfl, rfl, rfl, rfl, rfl, ?_, ?_⟩
  · simp [rendersAnalytics, initStats, calculateYearsOfMemories, truthyInt]
  · rintro rfl
    exact ⟨rfl, by decide, by decide, by decide⟩

/-- Witness for `initStats_bothFetchesFailed`: an empty photo order with a
thrown settings fetch and a 500 processing-stats response. -/
theorem initStats_bothFetchesFailed_witness :
    (FetchResult.networkError "offline" : FetchResult SettingsDoc).failed = true ∧
    (FetchResult.notOk 500 "Internal Server Error" : FetchResult ProcessingDoc).failed = true ∧
    ((initStats [] (fetchPresentationSettings (.networkError "offline"))
        (fetchProcessingStats (.notOk 500 "Internal Server Error"))).birthdate = none ∧
      (initStats [] (fetchPresentationSettings (.networkError "offline"))
        (fetchProcessingStats (.notOk 500 "Internal Server Error"))).deathdate = none ∧
      (initStats [] (fetchPresentationSettings (.networkError "offline"))
        (fetchProcessingStats (.notOk 500 "Internal Server Error"))).deceasedName = none ∧
      (initStats [] (fetchPresentationSettings (.networkError "offline"))
        (fetchProcessingStats (.notOk 500 "Internal Server Error"))).totalFacesIndexed = none ∧
      (initStats [] (fetchPresentationSettings (.networkError "offline"))
        (fetchProcessingStats (.notOk 500 "Internal Server Error"))).totalPhotosProcessed = none ∧
      (initStats [] (fetchPresentationSettings (.networkError "offline"))
        (fetchProcessingStats (.notOk 500 "Internal Server Error"))).yearsOfMemories = none ∧
      rendersAnalytics (initStats [] (fetchPresentationSettings (.networkError "offline"))
          (fetchProcessingStats (.notOk 500 "Internal Server Error"))) =
        truthyStr (initStats [] (fetchPresentationSettings (.networkError "offline"))
          (fetchProcessingStats (.notOk 500 "Internal Server Error"))).ageRangeLabel ∧
      (([] : List String) = [] →
        (initStats [] (fetchPresentationSettings (.networkError "offline"))
            (fetchProcessingStats (.notOk 500 "Internal Server Error"))).photoCount = 0 ∧
        (initStats [] (fetchPresentationSettings (.networkError "offline"))
            (fetchProcessingStats (.notOk 500 "Internal Server Error"))).ageRangeLabel = none ∧
        (initStats [] (fetchPresentationSettings (.networkError "offline"))
            (fetchProcessingStats (.notOk 500 "Internal Server Error"))).bucketCounts = none ∧
        rendersAnalytics (initStats [] (fetchPresentationSettings (.networkError "offline"))
            (fetchProcessingStats (.notOk 500 "Internal Server Error"))) = false)) :=
  ⟨rfl, rfl, initStats_bothFetchesFailed [] _ _ rfl rfl⟩

/-- Processing-stats document reporting 412 faces over 57 photos, used in
the render-gate counterexample. -/
def procDocFaces : ProcessingDoc :=
  { enhanced_processing_stats := some { total_faces_indexed := some 412, total_photos := some 57 } }

/-- C8 counterexample: a reachable run of the part_002 variant whose
aggregated record has a face count (one of the three headline figures the
claim lists) but neither years-of-memories nor an age-range label — the
render gate suppresses rendering, so presence of one of the three figures
does not guarantee rendering. -/
theorem rendersAnalytics_counterexample :
    truthyNat (initStats ["baby.jpg"]
        (fetchPresentationSettings (.notOk 404 "Not Found"))
        (fetchProcessingStats (.ok procDocFaces))).totalFacesIndexed = true ∧
    rendersAnalytics (initStats ["baby.jpg"]
        (fetchPresentationSettings (.notOk 404 "Not Found"))
        (fetchProcessingStats (.ok procDocFaces))) = false :=
  ⟨by decide, by decide⟩

/-- C8 (amended): nothing is displayed unless at least one of
years-of-memories, face count, or age-range label is present, but each
variant's gate checks only two of the three figures: the part_002 variant
renders exactly when years-of-memories or the age-range label is truthy
(face count alone does not trigger rendering), and the part_000 variant
renders exactly when its face count or years-of-memories is truthy. -/
theorem rendersAnalytics_gate (stats : AnalyticsStats) (statsV0 : AnalyticsStatsV0) :
    (rendersAnalytics stats = true →
      (truthyInt stats.yearsOfMemories || truthyNat stats.totalFacesIndexed ||
        truthyStr stats.ageRangeLabel) = true) ∧
    rendersAnalytics stats =
      (truthyInt stats.yearsOfMemories || truthyStr stats.ageRangeLabel) ∧
    (rendersAnalyticsV0 statsV0 = true →
      (truthyInt statsV0.yearsOfMemories || truthyNat statsV0.totalFacesIndexed) = true) ∧
    rendersAnalyticsV0 statsV0 =
      (truthyNat statsV0.totalFacesIndexed || truthyInt statsV0.yearsOfMemories) := by
  have h2 : rendersAnalytics stats =
      (truthyInt stats.yearsOfMemories || truthyStr stats.ageRangeLabel) := by
    simp [rendersAnalytics]
  have h4 : rendersAnalyticsV0 statsV0 =
      (truthyNat statsV0.totalFacesIndexed || truthyInt statsV0.yearsOfMemories) := by
    simp [rendersAnalyticsV0]
  refine ⟨?_, h2, ?_, h4⟩
  · rw [h2]
    intro h
    rcases Bool.or_eq_true_iff.mp h with hy | ha
    · simp [hy]
    · simp [ha]
  · rw [h4]
    intro h
    rcases Bool.or_eq_true_iff.mp h with hf | hy
    · simp [hf]
    · simp [hy]

/-- Stats record of the part_002 variant with only years-of-memories
present, used as the witness input for the render gate. -/
def statsYearsOnly : AnalyticsStats :=
  { photoCount := 3, ageRangeLabel := none, bucketCounts := none,
    youngestBucket := none, oldestBucket := none,
    birthdate := some 1930, deathdate := some 2020, deceasedName := none,
    totalFacesIndexed := none, totalPhotosProcessed := none,
    yearsOfMemories := some 90 }

/-- Stats record of the part_000 variant with only the face count present,
used as the witness input for the render gate. -/
def statsV0FacesOnly : AnalyticsStatsV0 :=
  { photoCount := 3, totalPhotos := none, successfullyProcessed := none,
    totalFacesIndexed := some 412, qualifyingClusters := none,
    stragglerClusters := none, singletonClusters := none,
    similarityCacheSize := none, birthdate := none, deathdate := none,
    deceasedName := none, yearsOfMemories := none }

/-- Witness for `rendersAnalytics_gate`: a part_002 record with
years-of-memories present renders, and a part_000 record with a face count
present renders; the gate hypotheses are discharged concretely. -/
theorem rendersAnalytics_gate_witness :
    rendersAnalytics statsYearsOnly = true ∧
    (truthyInt statsYearsOnly.yearsOfMemories || truthyNat statsYearsOnly.totalFacesIndexed ||
      truthyStr statsYearsOnly.ageRangeLabel) = true ∧
    rendersAnalyticsV0 statsV0FacesOnly = true ∧
    (truthyInt statsV0FacesOnly.yearsOfMemories ||
      truthyNat statsV0FacesOnly.totalFacesIndexed) = true :=
  ⟨by decide, (rendersAnalytics_gate statsYearsOnly statsV0FacesOnly).1 (by decide),
    by decide, (rendersAnalytics_gate statsYearsOnly statsV0FacesOnly).2.2.1 (by decide)⟩
